import Mathlib

set_option maxRecDepth 100000

/-!
Verification of `overlay_arrows_and_more_mcp` (mcp_overlay_server.py).

The development shallowly embeds the server's generation pipeline:

* `generate_basic_overlay_code` — the deterministic fallback generator,
  translated statement by statement from the Python source (keyword
  matching on the lowercased prompt, then an f-string template);
* `call_tool` — the tool-call adapter.  The Python function wraps its
  whole body in `try/except Exception`; we model the body as an
  `Except String` computation (`call_tool_body`, where `Except.error`
  stands for a raised exception) and `call_tool` as the body composed
  with the outermost handler, which converts any exception into the
  textual result `ERROR: Could not generate code - <message>`.
* The external LLM call is abstracted by an `LLMResult` parameter:
  `success content` models a completed API call whose first choice has
  the given message content, `failure msg` models any raised exception
  on that path (missing `OPENAI_API_KEY`, transport error, malformed
  response).

Python string primitives are modelled on `List Char`:
`word in s` becomes `strContains s word` (substring search),
`s.lower()` becomes `pyLower s` (character-wise lowercasing), and
`s.strip()` becomes `String.trim`.
-/

/-- `subAt pat text`: does `pat` occur as a prefix of `text`?
Models the alignment test underlying Python's `in` operator. -/
def subAt : List Char → List Char → Bool
  | [], _ => true
  | _ :: _, [] => false
  | p :: ps, t :: ts => p == t && subAt ps ts

/-- `hasSub pat text`: does `pat` occur as a contiguous substring of
`text` (at any position)?  Models Python's `pat in text`. -/
def hasSub : List Char → List Char → Bool
  | pat, [] => subAt pat []
  | pat, t :: ts => subAt pat (t :: ts) || hasSub pat ts

/-- String-level substring test, argument order as in Python `pat in s`
read as `strContains s pat`. -/
def strContains (s pat : String) : Bool :=
  hasSub pat.data s.data

/-- Models Python `any(word in s for word in words)`. -/
def containsAny (s : String) (words : List String) : Bool :=
  words.any (fun w => strContains s w)

/-- Models Python `s.lower()` (character-wise; the source's keyword
matching only distinguishes case on ASCII letters). -/
def pyLower (s : String) : String :=
  String.mk (s.data.map Char.toLower)

/-- `countSub pat text` counts the positions of `text` at which `pat`
occurs as a substring. -/
def countSub (pat : List Char) : List Char → Nat
  | [] => if subAt pat [] then 1 else 0
  | t :: ts => (if subAt pat (t :: ts) then 1 else 0) + countSub pat ts

/-- The f-string template of `generate_basic_overlay_code` (source lines
134–143), abstracted over the interpolated locals. -/
def codeTemplate (shape : String) (x y width height thickness : Nat)
    (color : String) (sleep_time : Nat) : String :=
  "import overlay_arrows_and_more as oaam\nimport time\n\nmain_overlay = oaam.Overlay()\nmain_overlay.add(geometry="
    ++ shape ++ ", x=" ++ toString x ++ ", y=" ++ toString y
    ++ ", width=" ++ toString width ++ ", height=" ++ toString height
    ++ ", thickness=" ++ toString thickness ++ ", color=" ++ color
    ++ ")\nmain_overlay.refresh()\ntime.sleep(" ++ toString sleep_time
    ++ ")\nmain_overlay.clear_all()\nmain_overlay.refresh()"

/-- Shape detection of `generate_basic_overlay_code` (source lines
117–122): starting from the defaults `shape = oaam.Shape.rectangle`,
`(width, height) = (200, 100)`, the ellipse keywords are checked first,
then the arrow keywords (which also override the size to `(100, 20)`).
Returns `(shape, width, height)`. -/
def detectShape (prompt_lower : String) : String × Nat × Nat :=
  if containsAny prompt_lower ["circle", "ellipse", "oval", "rond"] then
    ("oaam.Shape.ellipse", 200, 100)
  else if containsAny prompt_lower ["arrow", "line", "pointer", "flèche", "ligne"] then
    ("oaam.Shape.arrow", 100, 20)
  else
    ("oaam.Shape.rectangle", 200, 100)

/-- Colour detection of `generate_basic_overlay_code` (source lines
124–132): ordered checks blue, green, yellow, black (each with its
French variant); no match leaves the default red. -/
def detectColor (prompt_lower : String) : String :=
  if containsAny prompt_lower ["blue", "bleu"] then "(0, 0, 255)"
  else if containsAny prompt_lower ["green", "vert"] then "(0, 255, 0)"
  else if containsAny prompt_lower ["yellow", "jaune"] then "(255, 255, 0)"
  else if containsAny prompt_lower ["black", "noir"] then "(0, 0, 0)"
  else "(255, 0, 0)"

/-- `generate_basic_overlay_code` (source lines 104–150): lowercase the
prompt, apply the keyword heuristics, interpolate the fixed constants
`x = y = 100`, `thickness = 3`, `sleep_time = 3` into the template.
The Python `try` body consists of pure string operations and cannot
raise, so the function is total. -/
def generate_basic_overlay_code (prompt : String) : String :=
  let prompt_lower := pyLower prompt
  let sh := detectShape prompt_lower
  let color := detectColor prompt_lower
  codeTemplate sh.1 100 100 sh.2.1 sh.2.2 3 color 3

/-- A single MCP `TextContent` item, as constructed by
`TextContent(type="text", text=...)` in the source. -/
structure TextContent where
  type : String
  text : String
  deriving DecidableEq, Repr

/-- Outcome of the OpenAI path inside `call_tool`: `success content`
models a completed `chat.completions.create` call whose first choice
carries `content`; `failure msg` models any exception raised on that
path (missing `OPENAI_API_KEY`, transport/service error, malformed
response). -/
inductive LLMResult where
  | success (content : String)
  | failure (msg : String)
  deriving DecidableEq, Repr

/-- The body of `call_tool` (source lines 61–97), i.e. everything inside
the outer `try`.  `Except.error e` models an exception with message `e`
escaping the body; the only such exception is the `ValueError` raised
for an unrecognized tool name.  The inner `try/except` around the
OpenAI path is reflected in the `match` on `llm`: every failure of that
path falls back to `generate_basic_overlay_code`. -/
def call_tool_body (name : String) (arguments : List (String × String))
    (llm : LLMResult) : Except String (List TextContent) :=
  if name ≠ "generate_overlay_script" then
    Except.error ("Unknown tool: " ++ name)
  else
    let prompt := (arguments.lookup "prompt").getD ""
    if prompt = "" then
      Except.ok [⟨"text", "ERROR: No prompt provided"⟩]
    else
      match llm with
      | LLMResult.success content => Except.ok [⟨"text", content.trim⟩]
      | LLMResult.failure _ =>
          Except.ok [⟨"text", generate_basic_overlay_code prompt⟩]

/-- `call_tool` (source lines 59–102): the body wrapped in the outermost
`except Exception` handler, which converts any escaping exception into
the textual result `ERROR: Could not generate code - <message>`. -/
def call_tool (name : String) (arguments : List (String × String))
    (llm : LLMResult) : List TextContent :=
  match call_tool_body name arguments llm with
  | Except.ok r => r
  | Except.error e => [⟨"text", "ERROR: Could not generate code - " ++ e⟩]

/-- The view of the generation orchestrator (spec §4.4): the inner
`try/except` of `call_tool` seen as a prompt-to-text function — the
OpenAI result (trimmed) on success, the fallback generator's output on
any failure. -/
def orchestrate (prompt : String) (llm : LLMResult) : String :=
  match llm with
  | LLMResult.success content => content.trim
  | LLMResult.failure _ => generate_basic_overlay_code prompt

/-- The `ShapeConstant` enumeration of the spec's data model (§3):
a closed set of three constants. -/
inductive ShapeConstant where
  | rectangle
  | ellipse
  | arrow
  deriving DecidableEq, Repr

/-- Textual rendering of a `ShapeConstant` as it appears in generated
scripts. -/
def renderShape : ShapeConstant → String
  | ShapeConstant.rectangle => "oaam.Shape.rectangle"
  | ShapeConstant.ellipse => "oaam.Shape.ellipse"
  | ShapeConstant.arrow => "oaam.Shape.arrow"

/-- Textual rendering of an RGB colour tuple as it appears in generated
scripts. -/
def renderColor (c : Nat × Nat × Nat) : String :=
  "(" ++ toString c.1 ++ ", " ++ toString c.2.1 ++ ", " ++ toString c.2.2 ++ ")"

/-- Modelled from the spec (§4.1, Grammar Definition): one instantiation
of the five-statement target template — two imports, one `Overlay`
construction, exactly one `add` call, `refresh`, `sleep`, `clear_all`,
`refresh`.  Written out from the spec's template text; it coincides with
the source's f-string on the rendered arguments. -/
def grammarInstance (shape : ShapeConstant) (x y width height thickness : Nat)
    (color : Nat × Nat × Nat) (sleepSeconds : Nat) : String :=
  "import overlay_arrows_and_more as oaam\nimport time\n\nmain_overlay = oaam.Overlay()\nmain_overlay.add(geometry="
    ++ renderShape shape ++ ", x=" ++ toString x ++ ", y=" ++ toString y
    ++ ", width=" ++ toString width ++ ", height=" ++ toString height
    ++ ", thickness=" ++ toString thickness ++ ", color=" ++ renderColor color
    ++ ")\nmain_overlay.refresh()\ntime.sleep(" ++ toString sleepSeconds
    ++ ")\nmain_overlay.clear_all()\nmain_overlay.refresh()"

/-- A string is a Grammar Definition instance if it is the template
instantiated at some shape constant and integer parameters. -/
def IsGrammarInstance (s : String) : Prop :=
  ∃ (shape : ShapeConstant) (x y width height thickness : Nat)
    (color : Nat × Nat × Nat) (sleepSeconds : Nat),
    s = grammarInstance shape x y width height thickness color sleepSeconds

/-- Models Python `s.startswith(pre)`: does `s` begin with `pre`? -/
def startsWithStr (s pre : String) : Bool :=
  subAt pre.data s.data

/-- The shape-add statement pattern of the grammar; a conforming script
contains it exactly once. -/
def addCallPattern : String :=
  "main_overlay.add("

/-- The `ShapeConstant` selected by the fallback's keyword matching for
a given prompt — the decision structure of `detectShape`, valued in the
spec's enumeration instead of the rendered string. -/
def selectedShape (p : String) : ShapeConstant :=
  if containsAny (pyLower p) ["circle", "ellipse", "oval", "rond"] then
    ShapeConstant.ellipse
  else if containsAny (pyLower p) ["arrow", "line", "pointer", "flèche", "ligne"] then
    ShapeConstant.arrow
  else
    ShapeConstant.rectangle

/-- The colour tuple selected by the fallback's keyword matching for a
given prompt — the decision structure of `detectColor`, valued in RGB
tuples instead of the rendered string. -/
def selectedColor (p : String) : Nat × Nat × Nat :=
  if containsAny (pyLower p) ["blue", "bleu"] then (0, 0, 255)
  else if containsAny (pyLower p) ["green", "vert"] then (0, 255, 0)
  else if containsAny (pyLower p) ["yellow", "jaune"] then (255, 255, 0)
  else if containsAny (pyLower p) ["black", "noir"] then (0, 0, 0)
  else (255, 0, 0)

/-- The suffix of `text` just after the first occurrence of `pat`
(`none` if `pat` does not occur). -/
def afterFirst : List Char → List Char → Option (List Char)
  | pat, [] => if subAt pat [] then some [] else none
  | pat, t :: ts =>
      if subAt pat (t :: ts) then some (List.drop pat.length (t :: ts))
      else afterFirst pat ts

/-- The portion of `text` strictly before the first occurrence of `pat`
(`none` if `pat` does not occur). -/
def upToFirst : List Char → List Char → Option (List Char)
  | pat, [] => if subAt pat [] then some [] else none
  | pat, t :: ts =>
      if subAt pat (t :: ts) then some []
      else (upToFirst pat ts).map (fun r => t :: r)

/-- The text standing between the first occurrence of `pre` and the
next occurrence of `post` in `s`. -/
def betweenPats (pre post s : String) : Option String :=
  (afterFirst pre.data s.data).bind
    (fun rest => (upToFirst post.data rest).map String.mk)

/-- Read the `geometry=` argument back out of a generated script. -/
def parseGeometry (s : String) : Option String :=
  betweenPats "geometry=" ", x=" s

/-- Read the `color=` argument (the rendered tuple, parentheses
included) back out of a generated script. -/
def parseColor (s : String) : Option String :=
  betweenPats "color=" ")\n" s

/-! ## Case-analysis infrastructure -/

/-- Unfolding `generate_basic_overlay_code` to the template applied to
the detected parameters (definitional). -/
lemma gen_eq_template (p : String) :
    generate_basic_overlay_code p =
      codeTemplate (detectShape (pyLower p)).1 100 100
        (detectShape (pyLower p)).2.1 (detectShape (pyLower p)).2.2 3
        (detectColor (pyLower p)) 3 := rfl

/-- The source's f-string template and the spec's grammar template
agree on rendered arguments (definitional). -/
lemma codeTemplate_render (sc : ShapeConstant) (x y w h t : Nat)
    (c : Nat × Nat × Nat) (sl : Nat) :
    codeTemplate (renderShape sc) x y w h t (renderColor c) sl =
      grammarInstance sc x y w h t c sl := rfl

/-- `detectShape` always returns the rendering of `selectedShape`
together with one of the two possible sizes. -/
lemma shape_cases (p : String) :
    ∃ w h : Nat,
      detectShape (pyLower p) = (renderShape (selectedShape p), w, h) ∧
      ((selectedShape p = ShapeConstant.ellipse ∧ w = 200 ∧ h = 100) ∨
       (selectedShape p = ShapeConstant.arrow ∧ w = 100 ∧ h = 20) ∨
       (selectedShape p = ShapeConstant.rectangle ∧ w = 200 ∧ h = 100)) := by
  by_cases h1 : containsAny (pyLower p) ["circle", "ellipse", "oval", "rond"] = true
  · have hs : selectedShape p = ShapeConstant.ellipse := by
      unfold selectedShape; rw [if_pos h1]
    have hd : detectShape (pyLower p) = ("oaam.Shape.ellipse", 200, 100) := by
      unfold detectShape; rw [if_pos h1]
    exact ⟨200, 100, by rw [hd, hs]; decide, Or.inl ⟨hs, rfl, rfl⟩⟩
  · by_cases h2 : containsAny (pyLower p) ["arrow", "line", "pointer", "flèche", "ligne"] = true
    · have hs : selectedShape p = ShapeConstant.arrow := by
        unfold selectedShape; rw [if_neg h1, if_pos h2]
      have hd : detectShape (pyLower p) = ("oaam.Shape.arrow", 100, 20) := by
        unfold detectShape; rw [if_neg h1, if_pos h2]
      exact ⟨100, 20, by rw [hd, hs]; decide, Or.inr (Or.inl ⟨hs, rfl, rfl⟩)⟩
    · have hs : selectedShape p = ShapeConstant.rectangle := by
        unfold selectedShape; rw [if_neg h1, if_neg h2]
      have hd : detectShape (pyLower p) = ("oaam.Shape.rectangle", 200, 100) := by
        unfold detectShape; rw [if_neg h1, if_neg h2]
      exact ⟨200, 100, by rw [hd, hs]; decide, Or.inr (Or.inr ⟨hs, rfl, rfl⟩)⟩

/-- `detectColor` always returns the rendering of `selectedColor`,
which is one of the five palette tuples. -/
lemma color_cases (p : String) :
    detectColor (pyLower p) = renderColor (selectedColor p) ∧
    (selectedColor p = (0, 0, 255) ∨ selectedColor p = (0, 255, 0) ∨
     selectedColor p = (255, 255, 0) ∨ selectedColor p = (0, 0, 0) ∨
     selectedColor p = (255, 0, 0)) := by
  by_cases h1 : containsAny (pyLower p) ["blue", "bleu"] = true
  · have hc : selectedColor p = (0, 0, 255) := by
      unfold selectedColor; rw [if_pos h1]
    have hd : detectColor (pyLower p) = "(0, 0, 255)" := by
      unfold detectColor; rw [if_pos h1]
    exact ⟨by rw [hd, hc]; decide, Or.inl hc⟩
  · by_cases h2 : containsAny (pyLower p) ["green", "vert"] = true
    · have hc : selectedColor p = (0, 255, 0) := by
        unfold selectedColor; rw [if_neg h1, if_pos h2]
      have hd : detectColor (pyLower p) = "(0, 255, 0)" := by
        unfold detectColor; rw [if_neg h1, if_pos h2]
      exact ⟨by rw [hd, hc]; decide, Or.inr (Or.inl hc)⟩
    · by_cases h3 : containsAny (pyLower p) ["yellow", "jaune"] = true
      · have hc : selectedColor p = (255, 255, 0) := by
          unfold selectedColor; rw [if_neg h1, if_neg h2, if_pos h3]
        have hd : detectColor (pyLower p) = "(255, 255, 0)" := by
          unfold detectColor; rw [if_neg h1, if_neg h2, if_pos h3]
        exact ⟨by rw [hd, hc]; decide, Or.inr (Or.inr (Or.inl hc))⟩
      · by_cases h4 : containsAny (pyLower p) ["black", "noir"] = true
        · have hc : selectedColor p = (0, 0, 0) := by
            unfold selectedColor; rw [if_neg h1, if_neg h2, if_neg h3, if_pos h4]
          have hd : detectColor (pyLower p) = "(0, 0, 0)" := by
            unfold detectColor; rw [if_neg h1, if_neg h2, if_neg h3, if_pos h4]
          exact ⟨by rw [hd, hc]; decide, Or.inr (Or.inr (Or.inr (Or.inl hc)))⟩
        · have hc : selectedColor p = (255, 0, 0) := by
            unfold selectedColor; rw [if_neg h1, if_neg h2, if_neg h3, if_neg h4]
          have hd : detectColor (pyLower p) = "(255, 0, 0)" := by
            unfold detectColor; rw [if_neg h1, if_neg h2, if_neg h3, if_neg h4]
          exact ⟨by rw [hd, hc]; decide, Or.inr (Or.inr (Or.inr (Or.inr hc)))⟩

/-- Master case analysis: every fallback output is the grammar template
at the selected shape and colour, with the size determined by the shape
branch. -/
lemma gen_cases (p : String) :
    ∃ w h : Nat,
      detectShape (pyLower p) = (renderShape (selectedShape p), w, h) ∧
      detectColor (pyLower p) = renderColor (selectedColor p) ∧
      generate_basic_overlay_code p =
        grammarInstance (selectedShape p) 100 100 w h 3 (selectedColor p) 3 ∧
      ((selectedShape p = ShapeConstant.ellipse ∧ w = 200 ∧ h = 100) ∨
       (selectedShape p = ShapeConstant.arrow ∧ w = 100 ∧ h = 20) ∨
       (selectedShape p = ShapeConstant.rectangle ∧ w = 200 ∧ h = 100)) ∧
      (selectedColor p = (0, 0, 255) ∨ selectedColor p = (0, 255, 0) ∨
       selectedColor p = (255, 255, 0) ∨ selectedColor p = (0, 0, 0) ∨
       selectedColor p = (255, 0, 0)) := by
  obtain ⟨w, h, hsh, hdisj⟩ := shape_cases p
  obtain ⟨hcol, hcdisj⟩ := color_cases p
  refine ⟨w, h, hsh, hcol, ?_, hdisj, hcdisj⟩
  rw [gen_eq_template, hsh, hcol]
  exact codeTemplate_render (selectedShape p) 100 100 w h 3 (selectedColor p) 3


/-- Every character of a pattern matching at the head of a text occurs
in the text. -/
lemma mem_of_subAt {pat : List Char} :
    ∀ {l : List Char}, subAt pat l = true → ∀ c ∈ pat, c ∈ l := by
  induction pat with
  | nil =>
      intro l _ c hc
      exact absurd hc (List.not_mem_nil c)
  | cons p ps ih =>
      intro l h c hc
      cases l with
      | nil => simp [subAt] at h
      | cons t ts =>
          rw [subAt, Bool.and_eq_true, beq_iff_eq] at h
          obtain ⟨rfl, hrest⟩ := h
          rcases List.mem_cons.mp hc with rfl | hmem
          · exact List.mem_cons_self _ _
          · exact List.mem_cons_of_mem _ (ih hrest c hmem)

/-- Every character of a pattern occurring as a substring of a text
occurs in the text. -/
lemma mem_of_hasSub {pat : List Char} :
    ∀ {l : List Char}, hasSub pat l = true → ∀ c ∈ pat, c ∈ l := by
  intro l
  induction l with
  | nil =>
      intro h c hc
      exact mem_of_subAt h c hc
  | cons t ts ih =>
      intro h c hc
      rw [hasSub, Bool.or_eq_true] at h
      rcases h with h | h
      · exact mem_of_subAt h c hc
      · exact List.mem_cons_of_mem _ (ih h c hc)

/-- A word holding at least one non-whitespace character is not a
substring of a whitespace-only string. -/
lemma strContains_ws_false (s w : String)
    (hs : ∀ c ∈ s.data, c.isWhitespace = true)
    (hw : ∃ c ∈ w.data, c.isWhitespace = false) :
    strContains s w = false := by
  obtain ⟨c, hcw, hcf⟩ := hw
  cases h : strContains s w with
  | false => rfl
  | true =>
      exfalso
      have hmem : c ∈ s.data := mem_of_hasSub h c hcw
      rw [hs c hmem] at hcf
      exact Bool.noConfusion hcf

/-- No keyword from a list of words each holding a non-whitespace
character matches inside a whitespace-only string. -/
lemma containsAny_ws_false (s : String) (words : List String)
    (hs : ∀ c ∈ s.data, c.isWhitespace = true)
    (hw : ∀ w ∈ words, ∃ c ∈ w.data, c.isWhitespace = false) :
    containsAny s words = false := by
  rw [containsAny, List.any_eq_false]
  intro w hwmem
  simp [strContains_ws_false s w hs (hw w hwmem)]

/-- Lowercasing preserves whitespace. -/
lemma toLower_whitespace (c : Char) (h : c.isWhitespace = true) :
    (Char.toLower c).isWhitespace = true := by
  rw [Char.isWhitespace] at h
  simp only [Bool.or_eq_true, decide_eq_true_eq] at h
  rcases h with ((rfl | rfl) | rfl) | rfl <;> decide

/-- `pyLower` maps whitespace-only strings to whitespace-only
strings. -/
lemma pyLower_whitespace (p : String)
    (h : ∀ c ∈ p.data, c.isWhitespace = true) :
    ∀ c ∈ (pyLower p).data, c.isWhitespace = true := by
  intro c hc
  rw [pyLower] at hc
  simp only [List.mem_map] at hc
  obtain ⟨a, ha, rfl⟩ := hc
  exact toLower_whitespace a (h a ha)

/-- Appending to a string literal merges with a following literal
(definitional after exposing the character list). -/
lemma err_unknown_merge (name : String) :
    "ERROR: Could not generate code - " ++ ("Unknown tool: " ++ name) =
      "ERROR: Could not generate code - Unknown tool: " ++ name := by
  cases name with
  | mk l => rfl

/-! ## Claim theorems -/

/-- C1: for every non-empty prompt, the deterministic fallback
generator returns exactly one instantiation of the Grammar Definition
template (in particular the script contains exactly one
`main_overlay.add(` call), and the result never begins with the prefix
`ERROR:`. -/
theorem fallback_always_grammar_instance (p : String) (_hp : p ≠ "") :
    IsGrammarInstance (generate_basic_overlay_code p) ∧
    countSub addCallPattern.data (generate_basic_overlay_code p).data = 1 ∧
    startsWithStr (generate_basic_overlay_code p) "ERROR:" = false := by
  obtain ⟨w, h, _, _, hgen, hs, hc⟩ := gen_cases p
  refine ⟨⟨selectedShape p, 100, 100, w, h, 3, selectedColor p, 3, hgen⟩, ?_, ?_⟩ <;>
    rw [hgen] <;>
    rcases hs with ⟨h1, rfl, rfl⟩ | ⟨h1, rfl, rfl⟩ | ⟨h1, rfl, rfl⟩ <;> rw [h1] <;>
    rcases hc with h2 | h2 | h2 | h2 | h2 <;> rw [h2] <;> decide

/-- Witness for C1 at the concrete prompt `"draw something"`. -/
theorem fallback_always_grammar_instance_witness :
    IsGrammarInstance (generate_basic_overlay_code "draw something") ∧
    countSub addCallPattern.data
      (generate_basic_overlay_code "draw something").data = 1 ∧
    startsWithStr (generate_basic_overlay_code "draw something") "ERROR:" = false :=
  fallback_always_grammar_instance "draw something" (by decide)

/-- C5: shape selection is a first-match-wins priority: ellipse
keywords first (keeping the default 200×100 size), then arrow keywords
(overriding the size to 100×20), else rectangle; the two spec example
prompts behave as stated. -/
theorem shape_selection_priority (p : String) :
    (containsAny (pyLower p) ["circle", "ellipse", "oval", "rond"] = true →
      detectShape (pyLower p) = ("oaam.Shape.ellipse", 200, 100)) ∧
    (containsAny (pyLower p) ["circle", "ellipse", "oval", "rond"] = false →
      containsAny (pyLower p) ["arrow", "line", "pointer", "flèche", "ligne"] = true →
      detectShape (pyLower p) = ("oaam.Shape.arrow", 100, 20)) ∧
    (containsAny (pyLower p) ["circle", "ellipse", "oval", "rond"] = false →
      containsAny (pyLower p) ["arrow", "line", "pointer", "flèche", "ligne"] = false →
      detectShape (pyLower p) = ("oaam.Shape.rectangle", 200, 100)) ∧
    generate_basic_overlay_code "draw a blue circle" =
      codeTemplate "oaam.Shape.ellipse" 100 100 200 100 3 "(0, 0, 255)" 3 ∧
    generate_basic_overlay_code "draw an arrow pointing right" =
      codeTemplate "oaam.Shape.arrow" 100 100 100 20 3 "(255, 0, 0)" 3 := by
  refine ⟨?_, ?_, ?_, by decide, by decide⟩
  · intro h1
    unfold detectShape
    rw [if_pos h1]
  · intro h1 h2
    unfold detectShape
    rw [if_neg (by simp [h1]), if_pos h2]
  · intro h1 h2
    unfold detectShape
    rw [if_neg (by simp [h1]), if_neg (by simp [h2])]

/-- Witness for C5: the first branch applied at the prompt
`"a circle"`. -/
theorem shape_selection_priority_witness :
    detectShape (pyLower "a circle") = ("oaam.Shape.ellipse", 200, 100) :=
  (shape_selection_priority "a circle").1 (by decide)

/-- C6: colour selection checks blue, green, yellow, black in that
order, first match wins, default red; the colour slot of the generated
script is `detectColor` of the lowered prompt independently of the
shape branch; `"draw a green square"` yields the rectangle template
with colour `(0, 255, 0)`. -/
theorem color_selection_priority (p : String) :
    (containsAny (pyLower p) ["blue", "bleu"] = true →
      detectColor (pyLower p) = "(0, 0, 255)") ∧
    (containsAny (pyLower p) ["blue", "bleu"] = false →
      containsAny (pyLower p) ["green", "vert"] = true →
      detectColor (pyLower p) = "(0, 255, 0)") ∧
    (containsAny (pyLower p) ["blue", "bleu"] = false →
      containsAny (pyLower p) ["green", "vert"] = false →
      containsAny (pyLower p) ["yellow", "jaune"] = true →
      detectColor (pyLower p) = "(255, 255, 0)") ∧
    (containsAny (pyLower p) ["blue", "bleu"] = false →
      containsAny (pyLower p) ["green", "vert"] = false →
      containsAny (pyLower p) ["yellow", "jaune"] = false →
      containsAny (pyLower p) ["black", "noir"] = true →
      detectColor (pyLower p) = "(0, 0, 0)") ∧
    (containsAny (pyLower p) ["blue", "bleu"] = false →
      containsAny (pyLower p) ["green", "vert"] = false →
      containsAny (pyLower p) ["yellow", "jaune"] = false →
      containsAny (pyLower p) ["black", "noir"] = false →
      detectColor (pyLower p) = "(255, 0, 0)") ∧
    generate_basic_overlay_code p =
      codeTemplate (detectShape (pyLower p)).1 100 100
        (detectShape (pyLower p)).2.1 (detectShape (pyLower p)).2.2 3
        (detectColor (pyLower p)) 3 ∧
    generate_basic_overlay_code "draw a green square" =
      codeTemplate "oaam.Shape.rectangle" 100 100 200 100 3 "(0, 255, 0)" 3 := by
  refine ⟨?_, ?_, ?_, ?_, ?_, gen_eq_template p, by decide⟩
  · intro h1
    unfold detectColor
    rw [if_pos h1]
  · intro h1 h2
    unfold detectColor
    rw [if_neg (by simp [h1]), if_pos h2]
  · intro h1 h2 h3
    unfold detectColor
    rw [if_neg (by simp [h1]), if_neg (by simp [h2]), if_pos h3]
  · intro h1 h2 h3 h4
    unfold detectColor
    rw [if_neg (by simp [h1]), if_neg (by simp [h2]), if_neg (by simp [h3]), if_pos h4]
  · intro h1 h2 h3 h4
    unfold detectColor
    rw [if_neg (by simp [h1]), if_neg (by simp [h2]), if_neg (by simp [h3]),
      if_neg (by simp [h4])]

/-- Witness for C6: the green branch applied at the prompt
`"a green box"`. -/
theorem color_selection_priority_witness :
    detectColor (pyLower "a green box") = "(0, 255, 0)" :=
  (color_selection_priority "a green box").2.1 (by decide) (by decide)

/-- C7: in every fallback-generated script the position is (100,100),
the thickness is 3 and the sleep duration is 3, for any prompt; the
size is (100,20) exactly on the arrow branch and (200,100) otherwise;
and the colour is always one of the five palette strings. -/
theorem fixed_numeric_parameters (p : String) :
    ∃ w h : Nat,
      generate_basic_overlay_code p =
        codeTemplate (detectShape (pyLower p)).1 100 100 w h 3
          (detectColor (pyLower p)) 3 ∧
      ((detectShape (pyLower p)).1 = "oaam.Shape.arrow" → w = 100 ∧ h = 20) ∧
      ((detectShape (pyLower p)).1 ≠ "oaam.Shape.arrow" → w = 200 ∧ h = 100) ∧
      detectColor (pyLower p) ∈
        ["(0, 0, 255)", "(0, 255, 0)", "(255, 255, 0)", "(0, 0, 0)", "(255, 0, 0)"] := by
  obtain ⟨w, h, hsh, hdisj⟩ := shape_cases p
  obtain ⟨hcol, hcdisj⟩ := color_cases p
  refine ⟨w, h, ?_, ?_, ?_, ?_⟩
  · rw [gen_eq_template, hsh]
  · intro harrow
    rcases hdisj with ⟨hsc, rfl, rfl⟩ | ⟨hsc, rfl, rfl⟩ | ⟨hsc, rfl, rfl⟩
    · rw [hsh, hsc] at harrow
      exact absurd harrow (by decide)
    · exact ⟨rfl, rfl⟩
    · rw [hsh, hsc] at harrow
      exact absurd harrow (by decide)
  · intro hnot
    rcases hdisj with ⟨hsc, rfl, rfl⟩ | ⟨hsc, rfl, rfl⟩ | ⟨hsc, rfl, rfl⟩
    · exact ⟨rfl, rfl⟩
    · exfalso
      apply hnot
      rw [hsh, hsc]
      decide
    · exact ⟨rfl, rfl⟩
  · rcases hcdisj with h2 | h2 | h2 | h2 | h2 <;> rw [hcol, h2] <;> decide

/-- C8: the fallback generator is a pure function of the prompt (equal
prompts give byte-identical output), and parsing a generated script
back recovers exactly the rendered shape constant and colour tuple that
the keyword matching selected. -/
theorem fallback_pure_roundtrip (p₁ p₂ : String) (heq : p₁ = p₂) :
    generate_basic_overlay_code p₁ = generate_basic_overlay_code p₂ ∧
    parseGeometry (generate_basic_overlay_code p₁) =
      some (renderShape (selectedShape p₁)) ∧
    parseColor (generate_basic_overlay_code p₁) =
      some (renderColor (selectedColor p₁)) ∧
    (detectShape (pyLower p₁)).1 = renderShape (selectedShape p₁) ∧
    detectColor (pyLower p₁) = renderColor (selectedColor p₁) := by
  subst heq
  obtain ⟨w, h, hsh, hcol, hgen, hs, hc⟩ := gen_cases p₁
  refine ⟨rfl, ?_, ?_, by rw [hsh], hcol⟩ <;>
    rw [hgen] <;>
    rcases hs with ⟨h1, rfl, rfl⟩ | ⟨h1, rfl, rfl⟩ | ⟨h1, rfl, rfl⟩ <;> rw [h1] <;>
    rcases hc with h2 | h2 | h2 | h2 | h2 <;> rw [h2] <;> decide

/-- Witness for C8 at the concrete prompt `"draw a blue circle"`. -/
theorem fallback_pure_roundtrip_witness :
    generate_basic_overlay_code "draw a blue circle" =
      generate_basic_overlay_code "draw a blue circle" ∧
    parseGeometry (generate_basic_overlay_code "draw a blue circle") =
      some (renderShape (selectedShape "draw a blue circle")) ∧
    parseColor (generate_basic_overlay_code "draw a blue circle") =
      some (renderColor (selectedColor "draw a blue circle")) ∧
    (detectShape (pyLower "draw a blue circle")).1 =
      renderShape (selectedShape "draw a blue circle") ∧
    detectColor (pyLower "draw a blue circle") =
      renderColor (selectedColor "draw a blue circle") :=
  fallback_pure_roundtrip "draw a blue circle" "draw a blue circle" rfl

/-- C2 counterexample: for the unrecognized operation name
`"other_tool"`, `call_tool` does not propagate a protocol-level fault to
its caller — it returns a normal one-element textual result whose text
is an `ERROR:` sentinel (the raised `ValueError` is caught by
`call_tool`'s own outermost handler). -/
theorem unknown_tool_counterexample :
    call_tool "other_tool" [("prompt", "draw a circle")] (LLMResult.failure "no key") =
      [⟨"text", "ERROR: Could not generate code - Unknown tool: other_tool"⟩] ∧
    startsWithStr "ERROR: Could not generate code - Unknown tool: other_tool" "ERROR:" = true := by
  decide

/-- C2 (amended): for every request whose operation name is not
`generate_overlay_script`, the body of `call_tool` raises
`ValueError("Unknown tool: <name>")` before reaching the orchestrator
or either generator, and `call_tool`'s own outermost handler converts
it into the one-element textual result
`ERROR: Could not generate code - Unknown tool: <name>` — a sentinel
result, not a protocol-level fault. -/
theorem unknown_tool_textual_sentinel (name : String)
    (args : List (String × String)) (llm : LLMResult)
    (h : name ≠ "generate_overlay_script") :
    call_tool_body name args llm = Except.error ("Unknown tool: " ++ name) ∧
    call_tool name args llm =
      [⟨"text", "ERROR: Could not generate code - Unknown tool: " ++ name⟩] := by
  have hb : call_tool_body name args llm =
      Except.error ("Unknown tool: " ++ name) := by
    unfold call_tool_body
    rw [if_pos h]
  refine ⟨hb, ?_⟩
  unfold call_tool
  rw [hb]
  show [TextContent.mk "text" ("ERROR: Could not generate code - " ++ ("Unknown tool: " ++ name))] =
    [TextContent.mk "text" ("ERROR: Could not generate code - Unknown tool: " ++ name)]
  rw [err_unknown_merge]

/-- Witness for C2's amended theorem at the concrete name `"bad"`. -/
theorem unknown_tool_textual_sentinel_witness :
    call_tool_body "bad" [] (LLMResult.failure "no key") =
      Except.error ("Unknown tool: " ++ "bad") ∧
    call_tool "bad" [] (LLMResult.failure "no key") =
      [⟨"text", "ERROR: Could not generate code - Unknown tool: " ++ "bad"⟩] :=
  unknown_tool_textual_sentinel "bad" [] (LLMResult.failure "no key") (by decide)

/-- C3: when the `prompt` argument is absent or the empty string,
`call_tool` on `generate_overlay_script` returns exactly the text
`ERROR: No prompt provided`, for every LLM outcome (so neither
generator's result is consulted). -/
theorem empty_prompt_sentinel (args : List (String × String)) (llm : LLMResult)
    (h : args.lookup "prompt" = none ∨ args.lookup "prompt" = some "") :
    call_tool "generate_overlay_script" args llm =
      [⟨"text", "ERROR: No prompt provided"⟩] := by
  have hb : call_tool_body "generate_overlay_script" args llm =
      Except.ok [⟨"text", "ERROR: No prompt provided"⟩] := by
    unfold call_tool_body
    rcases h with h | h <;> simp [h]
  unfold call_tool
  rw [hb]

/-- Witness for C3 with no arguments at all. -/
theorem empty_prompt_sentinel_witness :
    call_tool "generate_overlay_script" [] (LLMResult.failure "no key") =
      [⟨"text", "ERROR: No prompt provided"⟩] :=
  empty_prompt_sentinel [] (LLMResult.failure "no key") (Or.inl rfl)

/-- C4: whenever the OpenAI path fails for any reason, the orchestrated
result for a prompt is exactly the fallback generator's output for that
same prompt, unmodified, and `call_tool` wraps exactly that string as
its single text item. -/
theorem llm_failure_falls_back (p msg : String) (args : List (String × String))
    (hlook : args.lookup "prompt" = some p) (hp : p ≠ "") :
    orchestrate p (LLMResult.failure msg) = generate_basic_overlay_code p ∧
    call_tool "generate_overlay_script" args (LLMResult.failure msg) =
      [⟨"text", generate_basic_overlay_code p⟩] := by
  refine ⟨rfl, ?_⟩
  have hb : call_tool_body "generate_overlay_script" args (LLMResult.failure msg) =
      Except.ok [⟨"text", generate_basic_overlay_code p⟩] := by
    unfold call_tool_body
    simp [hlook, hp]
  unfold call_tool
  rw [hb]

/-- Witness for C4 at the prompt `"draw a box"` and a concrete failure. -/
theorem llm_failure_falls_back_witness :
    orchestrate "draw a box" (LLMResult.failure "timeout") =
      generate_basic_overlay_code "draw a box" ∧
    call_tool "generate_overlay_script" [("prompt", "draw a box")]
        (LLMResult.failure "timeout") =
      [⟨"text", generate_basic_overlay_code "draw a box"⟩] :=
  llm_failure_falls_back "draw a box" "timeout" [("prompt", "draw a box")]
    (by decide) (by decide)

/-- C9: `call_tool` is total at the protocol boundary — for every
operation name, argument mapping and LLM outcome it returns a
one-element list with a single text item; an unrecognized name yields
the text `ERROR: Could not generate code - Unknown tool: <name>`; and
whenever the body raises, the outermost handler converts the exception
into an `ERROR: Could not generate code - <message>` text result
instead of letting it escape. -/
theorem call_tool_total (name : String) (args : List (String × String))
    (llm : LLMResult) :
    (∃ txt : String, call_tool name args llm = [⟨"text", txt⟩]) ∧
    (name ≠ "generate_overlay_script" →
      call_tool name args llm =
        [⟨"text", "ERROR: Could not generate code - Unknown tool: " ++ name⟩]) ∧
    (∀ e : String, call_tool_body name args llm = Except.error e →
      call_tool name args llm =
        [⟨"text", "ERROR: Could not generate code - " ++ e⟩]) := by
  by_cases hn : name = "generate_overlay_script"
  · subst hn
    by_cases hp : ((args.lookup "prompt").getD "") = ""
    · have hb : call_tool_body "generate_overlay_script" args llm =
          Except.ok [⟨"text", "ERROR: No prompt provided"⟩] := by
        unfold call_tool_body
        simp [hp]
      have hc : call_tool "generate_overlay_script" args llm =
          [⟨"text", "ERROR: No prompt provided"⟩] := by
        unfold call_tool
        rw [hb]
      refine ⟨⟨"ERROR: No prompt provided", hc⟩, fun h => absurd rfl h, ?_⟩
      intro e he
      rw [hb] at he
      exact Except.noConfusion he
    · cases llm with
      | success content =>
          have hb : call_tool_body "generate_overlay_script" args
              (LLMResult.success content) =
              Except.ok [⟨"text", content.trim⟩] := by
            unfold call_tool_body
            simp [hp]
          have hc : call_tool "generate_overlay_script" args
              (LLMResult.success content) = [⟨"text", content.trim⟩] := by
            unfold call_tool
            rw [hb]
          refine ⟨⟨content.trim, hc⟩, fun h => absurd rfl h, ?_⟩
          intro e he
          rw [hb] at he
          exact Except.noConfusion he
      | failure msg =>
          have hb : call_tool_body "generate_overlay_script" args
              (LLMResult.failure msg) =
              Except.ok [⟨"text",
                generate_basic_overlay_code ((args.lookup "prompt").getD "")⟩] := by
            unfold call_tool_body
            simp [hp]
          have hc : call_tool "generate_overlay_script" args
              (LLMResult.failure msg) =
              [⟨"text",
                generate_basic_overlay_code ((args.lookup "prompt").getD "")⟩] := by
            unfold call_tool
            rw [hb]
          refine ⟨⟨_, hc⟩, fun h => absurd rfl h, ?_⟩
          intro e he
          rw [hb] at he
          exact Except.noConfusion he
  · have hb : call_tool_body name args llm =
        Except.error ("Unknown tool: " ++ name) := by
      unfold call_tool_body
      rw [if_pos hn]
    have hc : call_tool name args llm =
        [⟨"text", "ERROR: Could not generate code - " ++ ("Unknown tool: " ++ name)⟩] := by
      unfold call_tool
      rw [hb]
    refine ⟨⟨_, hc⟩, fun _ => by rw [hc, err_unknown_merge], ?_⟩
    intro e he
    rw [hb] at he
    injection he with he
    rw [hc, he]

/-- Witness for C9: the unknown-name branch applied at `"zzz"`. -/
theorem call_tool_total_witness :
    call_tool "zzz" [] (LLMResult.failure "m") =
      [⟨"text", "ERROR: Could not generate code - Unknown tool: " ++ "zzz"⟩] :=
  (call_tool_total "zzz" [] (LLMResult.failure "m")).2.1 (by decide)

/-- C10: a non-empty whitespace-only prompt passes the adapter's
emptiness check: `call_tool` proceeds to the generation paths (it does
not return the `No prompt provided` sentinel), and on the fallback path
the result is the default rectangle, red, 3-second script. -/
theorem whitespace_prompt_not_rejected (p : String) (hne : p ≠ "")
    (hws : ∀ c ∈ p.data, c.isWhitespace = true)
    (args : List (String × String)) (hlook : args.lookup "prompt" = some p)
    (llm : LLMResult) (msg : String) :
    call_tool "generate_overlay_script" args llm =
      (match llm with
       | LLMResult.success content => [⟨"text", content.trim⟩]
       | LLMResult.failure _ => [⟨"text", generate_basic_overlay_code p⟩]) ∧
    call_tool "generate_overlay_script" args (LLMResult.failure msg) ≠
      [⟨"text", "ERROR: No prompt provided"⟩] ∧
    generate_basic_overlay_code p =
      grammarInstance ShapeConstant.rectangle 100 100 200 100 3 (255, 0, 0) 3 := by
  have hpl := pyLower_whitespace p hws
  have hsh : containsAny (pyLower p) ["circle", "ellipse", "oval", "rond"] = false :=
    containsAny_ws_false _ _ hpl (by decide)
  have har : containsAny (pyLower p)
      ["arrow", "line", "pointer", "flèche", "ligne"] = false :=
    containsAny_ws_false _ _ hpl (by decide)
  have hbl : containsAny (pyLower p) ["blue", "bleu"] = false :=
    containsAny_ws_false _ _ hpl (by decide)
  have hgr : containsAny (pyLower p) ["green", "vert"] = false :=
    containsAny_ws_false _ _ hpl (by decide)
  have hye : containsAny (pyLower p) ["yellow", "jaune"] = false :=
    containsAny_ws_false _ _ hpl (by decide)
  have hbk : containsAny (pyLower p) ["black", "noir"] = false :=
    containsAny_ws_false _ _ hpl (by decide)
  have hshape : detectShape (pyLower p) = ("oaam.Shape.rectangle", 200, 100) := by
    unfold detectShape
    rw [if_neg (by simp [hsh]), if_neg (by simp [har])]
  have hcolor : detectColor (pyLower p) = "(255, 0, 0)" := by
    unfold detectColor
    rw [if_neg (by simp [hbl]), if_neg (by simp [hgr]), if_neg (by simp [hye]),
      if_neg (by simp [hbk])]
  have hgen : generate_basic_overlay_code p =
      grammarInstance ShapeConstant.rectangle 100 100 200 100 3 (255, 0, 0) 3 := by
    rw [gen_eq_template, hshape, hcolor]
    decide
  have hb : ∀ l : LLMResult, call_tool_body "generate_overlay_script" args l =
      Except.ok (match l with
        | LLMResult.success content => [⟨"text", content.trim⟩]
        | LLMResult.failure _ => [⟨"text", generate_basic_overlay_code p⟩]) := by
    intro l
    unfold call_tool_body
    cases l <;> simp [hlook, hne]
  refine ⟨?_, ?_, hgen⟩
  · unfold call_tool
    rw [hb llm]
  · have hc : call_tool "generate_overlay_script" args (LLMResult.failure msg) =
        [⟨"text", generate_basic_overlay_code p⟩] := by
      unfold call_tool
      rw [hb (LLMResult.failure msg)]
    rw [hc, hgen]
    decide

/-- Witness for C10 at the one-space prompt `" "`. -/
theorem whitespace_prompt_not_rejected_witness :
    call_tool "generate_overlay_script" [("prompt", " ")] (LLMResult.failure "e") =
      (match LLMResult.failure "e" with
       | LLMResult.success content => [⟨"text", content.trim⟩]
       | LLMResult.failure _ => [⟨"text", generate_basic_overlay_code " "⟩]) ∧
    call_tool "generate_overlay_script" [("prompt", " ")] (LLMResult.failure "e") ≠
      [⟨"text", "ERROR: No prompt provided"⟩] ∧
    generate_basic_overlay_code " " =
      grammarInstance ShapeConstant.rectangle 100 100 200 100 3 (255, 0, 0) 3 :=
  whitespace_prompt_not_rejected " " (by decide) (by decide) [("prompt", " ")]
    (by decide) (LLMResult.failure "e") "e"
